import Mathlib

/-
Verification of the EOP-style single-frame extractor (src/get_frame.cpp).

The FFmpeg collaborator (libavformat / libavcodec / libswscale) is modelled
explicitly: the container's packet stream, the decoder's per-packet responses
and its end-of-stream flush behaviour are data supplied by the environment.
Every definition below mirrors the corresponding C++ entity of
src/get_frame.cpp; machine ints are modelled as Int (no arithmetic here ever
approaches the int range), pointers as Bool ownership flags or Option values.
-/

namespace GetFrame

/-! ### Part 1: frames (VideoFrame over AVFrame*) -/

/-- Payload of a non-null AVFrame: width/height/format metadata plus the
first data plane and its stride, which are all the program ever reads. -/
structure FrameData where
  width : Int
  height : Int
  format : Int
  linesize0 : Int
  data0 : List Nat
deriving DecidableEq

/-- VideoFrame: a non-owning AVFrame pointer; `none` models the null pointer
(the invalid frame / end marker). -/
abbrev VideoFrame := Option FrameData

/-- AV_PIX_FMT_NONE sentinel. -/
def AV_PIX_FMT_NONE : Int := -1

/-- AV_PIX_FMT_RGB24 pixel format id. -/
def AV_PIX_FMT_RGB24 : Int := 2

/-- is_valid(f): the frame pointer is non-null. -/
def is_valid (f : VideoFrame) : Bool := f.isSome

/-- width(f): f.ptr ? f.ptr->width : 0. -/
def width : VideoFrame → Int
  | some s => s.width
  | none => 0

/-- height(f): f.ptr ? f.ptr->height : 0. -/
def height : VideoFrame → Int
  | some s => s.height
  | none => 0

/-- pixel_format(f): f.ptr ? f.ptr->format : AV_PIX_FMT_NONE. -/
def pixel_format : VideoFrame → Int
  | some s => s.format
  | none => AV_PIX_FMT_NONE

/-! ### Part 2: VideoDecoder state machine -/

/-- Outcome of avcodec_receive_frame right after this packet was accepted by
avcodec_send_packet: needs more input (AVERROR(EAGAIN)), a genuine decode
error (ret < 0), or a decoded frame (ret = 0). -/
inductive RecvResult where
  | again : RecvResult
  | err : RecvResult
  | got : FrameData → RecvResult
deriving DecidableEq

/-- One demuxed packet as delivered by av_read_frame, annotated with the
codec collaborator's response to it: its stream index, whether
avcodec_send_packet accepts it, and what avcodec_receive_frame then yields. -/
structure PacketEv where
  stream_index : Int
  send_ok : Bool
  recv : RecvResult
deriving DecidableEq

/-- VideoDecoder: the explicit state machine of the source. The three
pointers (format_context, codec_context, packet) are modelled by ownership
flags; the container's remaining packet stream and the decoder's buffered
flush pictures live behind format_context / codec_context and are modelled
as the lists `packets` and `flushResults` (one flush retrieval consumes one
entry; an exhausted list means the flush retrieval yields nothing).
`alloc_ok` models whether av_frame_alloc succeeds. -/
structure VideoDecoder where
  has_format_context : Bool
  has_codec_context : Bool
  has_packet : Bool
  video_stream_index : Int
  is_open : Bool
  is_exhausted : Bool
  packets : List PacketEv
  flushResults : List (Option FrameData)
  alloc_ok : Bool
deriving DecidableEq

/-- The trivial constructor VideoDecoder(): everything null / -1 / false. -/
def VideoDecoder.init : VideoDecoder :=
  { has_format_context := false
    has_codec_context := false
    has_packet := false
    video_stream_index := -1
    is_open := false
    is_exhausted := false
    packets := []
    flushResults := []
    alloc_ok := true }

/-- Observable I/O events of the driver; open_container is the
avformat_open_input call performed at the start of `open`. -/
inductive Event where
  | open_container : Event
deriving DecidableEq

/-- Environment for `open`: the result of each fallible libav call made by
open, the media-type tags of the container's streams (true = video), and the
container/decoder content installed once the container is open. -/
structure OpenEnv where
  open_input_ok : Bool
  find_stream_info_ok : Bool
  stream_is_video : List Bool
  find_decoder_ok : Bool
  alloc_context3_ok : Bool
  parameters_to_context_ok : Bool
  open2_ok : Bool
  packet_alloc_ok : Bool
  packets : List PacketEv
  flushResults : List (Option FrameData)
  alloc_ok : Bool
deriving DecidableEq

/-- The stream scan of `open`: first index whose codec_type is video, else
the previous value of video_stream_index (break on first hit). -/
def scan_streams : Nat → List Bool → Int → Int
  | _, [], idx => idx
  | i, b :: bs, idx => if b then (i : Int) else scan_streams (i + 1) bs idx

/-- open(dec, path): the sequence of early-return failure checks of the
source, each leaving exactly the partial state acquired so far.
avformat_open_input is always attempted first (it frees the context itself
on failure, so has_format_context is only set on its success). Returns the
success flag, the updated decoder and the I/O events performed. -/
def open_decoder (dec : VideoDecoder) (env : OpenEnv) :
    Bool × VideoDecoder × List Event :=
  let tr := [Event.open_container]
  if !env.open_input_ok then (false, dec, tr)
  else
    let dec1 := { dec with
      has_format_context := true
      packets := env.packets
      flushResults := env.flushResults
      alloc_ok := env.alloc_ok }
    if !env.find_stream_info_ok then (false, dec1, tr)
    else
      let dec2 := { dec1 with
        video_stream_index :=
          scan_streams 0 env.stream_is_video dec1.video_stream_index }
      if dec2.video_stream_index = -1 then (false, dec2, tr)
      else if !env.find_decoder_ok then (false, dec2, tr)
      else if !env.alloc_context3_ok then (false, dec2, tr)
      else
        let dec3 := { dec2 with has_codec_context := true }
        if !env.parameters_to_context_ok then (false, dec3, tr)
        else if !env.open2_ok then (false, dec3, tr)
        else if !env.packet_alloc_ok then (false, dec3, tr)
        else
          (true, { dec3 with
            has_packet := true
            is_open := true
            is_exhausted := false }, tr)

/-- Resource-release events of close, one per freed handle. -/
inductive Res where
  | packet : Res
  | codec_context : Res
  | format_context : Res
deriving DecidableEq

/-- close(dec): frees the packet, the codec context and the format context,
each only if non-null, in that textual order, then clears the flags.
Returns the closed decoder and the release order actually performed. -/
def close (dec : VideoDecoder) : VideoDecoder × List Res :=
  let s1 := if dec.has_packet
    then ({ dec with has_packet := false }, [Res.packet])
    else (dec, [])
  let s2 := if s1.1.has_codec_context
    then ({ s1.1 with has_codec_context := false, flushResults := [] },
          s1.2 ++ [Res.codec_context])
    else s1
  let s3 := if s2.1.has_format_context
    then ({ s2.1 with has_format_context := false, packets := [] },
          s2.2 ++ [Res.format_context])
    else s2
  ({ s3.1 with is_open := false, is_exhausted := false }, s3.2)

/-- The while loop plus flush epilogue of read_frame, as a function of the
fields it touches: the resolved video stream index, the av_frame_alloc
behaviour, the decoder's buffered flush pictures and the remaining packets.
Returns the produced frame, the remaining packets, the remaining flush
pictures, and the new value of is_exhausted. -/
def read_frame_go (vsi : Int) (alloc_ok : Bool)
    (fl : List (Option FrameData)) :
    List PacketEv → VideoFrame × List PacketEv × List (Option FrameData) × Bool
  | [] =>
    -- av_read_frame < 0: flush path. avcodec_send_packet(ctx, nullptr)
    -- (result ignored), then one av_frame_alloc + avcodec_receive_frame.
    if !alloc_ok then (none, [], fl, true)
    else
      match fl with
      | some f :: rest => (some f, [], rest, false)
      | none :: rest => (none, [], rest, true)
      | [] => (none, [], [], true)
  | p :: ps =>
    if p.stream_index ≠ vsi then
      -- wrong stream: av_packet_unref, continue
      read_frame_go vsi alloc_ok fl ps
    else if !p.send_ok then
      -- avcodec_send_packet rejected: av_packet_unref, continue
      read_frame_go vsi alloc_ok fl ps
    else if !alloc_ok then
      -- av_frame_alloc failed: is_exhausted = true, return invalid
      (none, ps, fl, true)
    else
      match p.recv with
      | RecvResult.again => read_frame_go vsi alloc_ok fl ps
      | RecvResult.err => (none, ps, fl, true)
      | RecvResult.got f => (some f, ps, fl, false)

/-- read_frame(dec): guard `!dec.is_open || dec.is_exhausted` returns the
invalid frame untouched; otherwise run the decode loop and fold its outcome
back into the decoder state. -/
def read_frame (dec : VideoDecoder) : VideoFrame × VideoDecoder :=
  if !dec.is_open || dec.is_exhausted then (none, dec)
  else
    let r := read_frame_go dec.video_stream_index dec.alloc_ok
      dec.flushResults dec.packets
    (r.1, { dec with
      packets := r.2.1
      flushResults := r.2.2.1
      is_exhausted := r.2.2.2 })

/-! ### Part 3: VideoFrameIterator -/

/-- VideoFrameIterator: decoder pointer, the materialized current frame and
the at_end flag. The default constructor's null decoder pointer is modelled
by the never-dereferenced VideoDecoder.init (advance guards on at_end, so a
default-constructed iterator never reads through its decoder). -/
structure VideoFrameIterator where
  decoder : VideoDecoder
  current_frame : VideoFrame
  at_end : Bool
deriving DecidableEq

/-- The default-constructed iterator VideoFrameIterator(): at_end = true. -/
def endIterator : VideoFrameIterator :=
  { decoder := VideoDecoder.init, current_frame := none, at_end := true }

/-- advance(): if at_end do nothing; else free the previous current_frame
(a pure no-op on values), pull read_frame and set at_end when the pulled
frame is invalid. -/
def advance (i : VideoFrameIterator) : VideoFrameIterator :=
  if i.at_end then i
  else
    let r := read_frame i.decoder
    { decoder := r.2
      current_frame := r.1
      at_end := if is_valid r.1 then i.at_end else true }

/-- The converting constructor VideoFrameIterator(&dec): at_end = false,
then advance() to load the first frame. -/
def mkIterator (dec : VideoDecoder) : VideoFrameIterator :=
  advance { decoder := dec, current_frame := none, at_end := false }

/-- source(i): the current frame. -/
def source (i : VideoFrameIterator) : VideoFrame := i.current_frame

/-- successor(i): advance. -/
def successor (i : VideoFrameIterator) : VideoFrameIterator := advance i

/-- operator==: a.at_end == b.at_end. -/
def iterEq (a b : VideoFrameIterator) : Bool := a.at_end == b.at_end

/-- operator!=: !(a == b). -/
def iterNe (a b : VideoFrameIterator) : Bool := !(iterEq a b)

/-! ### Part 4: generic algorithms (instantiated at VideoFrameIterator) -/

/-- The loop of nth_element_or_default: `while (k < n && i != last)` with the
remaining trip count n - k as fuel, followed by the final
`(i != last) ? *i : default_value`; also returns the final iterator (the
C++ iterator mutates the shared decoder through its pointer, which the
value-level model keeps by threading the iterator). -/
def nth_loop (last : VideoFrameIterator) (default_value : VideoFrame) :
    VideoFrameIterator → Nat → VideoFrame × VideoFrameIterator
  | i, 0 => ((if iterNe i last then source i else default_value), i)
  | i, n + 1 =>
    if iterNe i last then nth_loop last default_value (successor i) n
    else (default_value, i)

/-- nth_element_or_default(first, last, n, default_value); n has the
iterator's difference_type (ptrdiff_t), so Int, and the loop runs
max n 0 times. -/
def nth_element_or_default (first last : VideoFrameIterator) (n : Int)
    (default_value : VideoFrame) : VideoFrame :=
  (nth_loop last default_value first n.toNat).1

/-- nth_element(first, last, n) = nth_element_or_default with the
value-initialized (invalid) frame as default. -/
def nth_element (first last : VideoFrameIterator) (n : Int) : VideoFrame :=
  nth_element_or_default first last n none

/-! ### Part 5: conversion and output -/

/-- Environment for to_rgb: the results of sws_getContext, av_frame_alloc
and av_frame_get_buffer, the stride av_frame_get_buffer picks for a given
width, and the plane-0 bytes sws_scale writes for a given source frame. -/
structure ConvEnv where
  sws_ok : Bool
  rgb_alloc_ok : Bool
  get_buffer_ok : Bool
  rgb_linesize : Int → Int
  scale : FrameData → List Nat

/-- RGBFrame: owning AVFrame pointer, null on failure. -/
abbrev RGBFrame := Option FrameData

/-- to_rgb(src): invalid source, sws_getContext failure, av_frame_alloc
failure or av_frame_get_buffer failure all yield the null RGBFrame; on
success the raster has the source's width/height and the RGB24 format. -/
def to_rgb (src : VideoFrame) (env : ConvEnv) : RGBFrame :=
  match src with
  | none => none
  | some s =>
    if !env.sws_ok then none
    else if !env.rgb_alloc_ok then none
    else if !env.get_buffer_ok then none
    else some
      { width := s.width
        height := s.height
        format := AV_PIX_FMT_RGB24
        linesize0 := env.rgb_linesize s.width
        data0 := env.scale s }

/-- The fprintf'd PPM header bytes: "P6\n%d %d\n255\n". -/
def ppmHeader (w h : Int) : List Nat :=
  (("P6\n" ++ toString w ++ " " ++ toString h ++ "\n255\n").toList).map
    Char.toNat

/-- One fwrite of the row loop: width*3 bytes starting at
data[0] + y*linesize[0]. -/
def ppmRow (r : FrameData) (y : Nat) : List Nat :=
  (r.data0.drop ((y * r.linesize0).toNat)).take (3 * r.width).toNat

/-- write_ppm(rgb, path): null frame or fopen failure yield no file and
false; otherwise the file is the header followed by the rows for
y = 0 .. height-1 and the result is true. Returns the written bytes. -/
def write_ppm (rgb : RGBFrame) (fopen_ok : Bool) :
    Option (List Nat) × Bool :=
  match rgb with
  | none => (none, false)
  | some r =>
    if !fopen_ok then (none, false)
    else
      (some (ppmHeader r.width r.height ++
        ((List.range r.height.toNat).map (ppmRow r)).flatten), true)

/-! ### Part 6: main -/

/-- main after argument parsing: frame_index is the parsed ordinal, the
environments supply the collaborator behaviour, fopen_ok the output fopen
result. Returns (exit code, written file bytes, final decoder state,
I/O events). Mirrors the source: open (exit on failure without close),
build the [first, last) range, nth_element, not-found exits through close,
otherwise to_rgb, write_ppm, destroy both frames, close, map success. -/
def main_model (frame_index : Int) (oenv : OpenEnv) (cenv : ConvEnv)
    (fopen_ok : Bool) :
    Nat × Option (List Nat) × VideoDecoder × List Event :=
  let o := open_decoder VideoDecoder.init oenv
  if !o.1 then (1, none, o.2.1, o.2.2)
  else
    let first := mkIterator o.2.1
    let r := nth_loop endIterator none first frame_index.toNat
    if !is_valid r.1 then (1, none, (close r.2.decoder).1, o.2.2)
    else
      let rgb := to_rgb r.1 cenv
      let w := write_ppm rgb fopen_ok
      ((if w.2 then 0 else 1), w.1, (close r.2.decoder).1, o.2.2)

/-! ### The decoded-picture sequence of a decoder state -/

/-- The sequence of decoded pictures a decoder state yields: the trace of
successive read_frame results up to and including the first invalid one. -/
inductive producesStream : VideoDecoder → List FrameData → Prop
  | nil : ∀ {d : VideoDecoder} (d' : VideoDecoder),
      read_frame d = (none, d') → producesStream d []
  | cons : ∀ {d : VideoDecoder} (f : FrameData) (d' : VideoDecoder)
      {l : List FrameData},
      read_frame d = (some f, d') → producesStream d' l →
      producesStream d (f :: l)

/-- The cursor `i` denotes the position of a sequence whose remaining
pictures (current one first) are `l`. -/
def represents (i : VideoFrameIterator) : List FrameData → Prop
  | [] => i.at_end = true
  | f :: l => i.at_end = false ∧ i.current_frame = some f ∧
      producesStream i.decoder l

theorem mkIterator_represents {d : VideoDecoder} {l : List FrameData}
    (h : producesStream d l) : represents (mkIterator d) l := by
  cases h with
  | nil d' hrf =>
    simp [mkIterator, advance, represents, hrf, is_valid]
  | cons f d' hrf hl =>
    simp only [mkIterator, advance, if_neg (by simp : ¬(false = true)), hrf,
      represents]
    refine ⟨by simp [is_valid], by simp, ?_⟩
    simpa [is_valid] using hl

theorem successor_represents {i : VideoFrameIterator} {l : List FrameData}
    (hend : i.at_end = false) (hprod : producesStream i.decoder l) :
    represents (successor i) l := by
  cases hprod with
  | nil d' hrf =>
    simp [successor, advance, represents, hend, hrf, is_valid]
  | cons f d' hrf hl =>
    simp only [successor, advance, hend, if_neg (by simp : ¬(false = true)),
      hrf, represents]
    refine ⟨by simp [is_valid], by simp, ?_⟩
    simpa [is_valid] using hl

theorem nth_loop_spec (dflt : VideoFrame) :
    ∀ (m : Nat) (i : VideoFrameIterator) (l : List FrameData),
      represents i l →
      (nth_loop endIterator dflt i m).1 =
        (match l[m]? with | some f => some f | none => dflt) := by
  have he : endIterator.at_end = true := rfl
  intro m
  induction m with
  | zero =>
    intro i l h
    match l with
    | [] =>
      simp only [represents] at h
      simp [nth_loop, iterNe, iterEq, he, h]
    | f :: l2 =>
      simp only [represents] at h
      simp [nth_loop, iterNe, iterEq, he, h.1, source, h.2.1]
  | succ m ih =>
    intro i l h
    match l with
    | [] =>
      simp only [represents] at h
      simp [nth_loop, iterNe, iterEq, he, h]
    | f :: l2 =>
      simp only [represents] at h
      have hrec := ih (successor i) l2 (successor_represents h.1 h.2.2)
      simp [nth_loop, iterNe, iterEq, he, h.1, hrec]

/-- C1: over a VideoFrameIterator range on a decoder whose decoded-picture
sequence is `l`, nth_element returns the picture at zero-based ordinal `n`
when the sequence has at least n+1 pictures, and the invalid frame when it
has fewer than n+1 pictures (including the boundary n = length). -/
theorem c1_nth_element_selector (d : VideoDecoder) (l : List FrameData)
    (n : Nat) (h : producesStream d l) :
    (∀ hn : n < l.length,
        nth_element (mkIterator d) endIterator (n : Int) =
          some (l.get ⟨n, hn⟩)) ∧
    (l.length ≤ n →
        nth_element (mkIterator d) endIterator (n : Int) = none) := by
  have key := nth_loop_spec none n (mkIterator d) l (mkIterator_represents h)
  have hto : ((n : Int)).toNat = n := Int.toNat_ofNat n
  constructor
  · intro hn
    have hg : l[n]? = some l[n] := List.getElem?_eq_getElem hn
    simp [nth_element, nth_element_or_default, hto, key, hg]
  · intro hn
    have hg : l[n]? = none := by
      simpa using List.getElem?_eq_none hn
    simp [nth_element, nth_element_or_default, hto, key, hg]

/-- 2x2 frame used by concrete instances. -/
def fW : FrameData := ⟨2, 2, 0, 6, [9, 9, 9, 9, 9, 9]⟩

def c1_dec : VideoDecoder :=
  ⟨true, true, true, 0, true, false, [⟨0, true, RecvResult.got fW⟩], [], true⟩

theorem c1_dec_stream : producesStream c1_dec [fW] :=
  producesStream.cons fW ⟨true, true, true, 0, true, false, [], [], true⟩
    (by decide)
    (producesStream.nil ⟨true, true, true, 0, true, true, [], [], true⟩
      (by decide))

theorem c1_witness :
    nth_element (mkIterator c1_dec) endIterator ((0 : Nat) : Int) =
      some ([fW].get ⟨0, by decide⟩) :=
  (c1_nth_element_selector c1_dec [fW] 0 c1_dec_stream).1 (by decide)

/-! ### C3: end-of-stream flush behaviour -/

def fA : FrameData := ⟨2, 2, 0, 6, [0]⟩

def fB : FrameData := ⟨2, 2, 0, 6, [1]⟩

def c3_dec : VideoDecoder :=
  ⟨true, true, true, 0, true, false, [], [some fA, some fB], true⟩

/-- C3 counterexample: with no packets left and two pictures still buffered
in the decoder, the first flush retrieval succeeds but the decoder is NOT
transitioned to the terminal state, and the very next read_frame call does
further flush decoding and returns another valid picture. -/
theorem c3_counterexample :
    (read_frame c3_dec).1 = some fA ∧
    (read_frame c3_dec).2.is_exhausted = false ∧
    is_valid (read_frame (read_frame c3_dec).2).1 = true := by decide

/-- C3 amended: at end of container input, read_frame submits end-of-stream
and attempts exactly one retrieval per call; a successful retrieval returns
the picture but leaves is_exhausted = false (so the next call performs
another flush retrieval); only a failed retrieval transitions to the
terminal exhausted state, which is absorbing. -/
theorem c3_flush_behavior :
    (∀ (d : VideoDecoder) (f : FrameData) (rest : List (Option FrameData)),
        d.is_open = true → d.is_exhausted = false → d.packets = [] →
        d.alloc_ok = true → d.flushResults = some f :: rest →
        read_frame d = (some f, { d with flushResults := rest })) ∧
    (∀ d : VideoDecoder,
        d.is_open = true → d.is_exhausted = false → d.packets = [] →
        (d.alloc_ok = false ∨ d.flushResults.head? = none ∨
          d.flushResults.head? = some none) →
        (read_frame d).1 = none ∧ (read_frame d).2.is_exhausted = true) ∧
    (∀ d : VideoDecoder, d.is_exhausted = true → read_frame d = (none, d)) := by
  refine ⟨?_, ?_, ?_⟩
  · intro d f rest h1 h2 h3 h4 h5
    simp [read_frame, read_frame_go, h1, h2, h3, h4, h5]
  · intro d h1 h2 h3 h45
    rcases h45 with h4 | h4 | h4
    · simp [read_frame, read_frame_go, h1, h2, h3, h4]
    · have hfl : d.flushResults = [] := by
        cases hc : d.flushResults with
        | nil => rfl
        | cons o rest => rw [hc] at h4; simp at h4
      rcases ha : d.alloc_ok <;>
        simp [read_frame, read_frame_go, h1, h2, h3, hfl, ha]
    · have hfl : ∃ rest, d.flushResults = none :: rest := by
        cases hc : d.flushResults with
        | nil => rw [hc] at h4; simp at h4
        | cons o rest =>
          rw [hc] at h4
          simp at h4
          exact ⟨rest, by rw [h4]⟩
      obtain ⟨rest, hfl⟩ := hfl
      rcases ha : d.alloc_ok <;>
        simp [read_frame, read_frame_go, h1, h2, h3, hfl, ha]
  · intro d h
    simp [read_frame, h]

theorem c3_witness :
    read_frame c3_dec = (some fA, { c3_dec with flushResults := [some fB] }) :=
  c3_flush_behavior.1 c3_dec fA [some fB] rfl rfl rfl rfl rfl

/-! ### C5: teardown order of close -/

def c5_dec : VideoDecoder := ⟨true, true, true, 0, true, false, [], [], true⟩

/-- C5 counterexample: on a fully open decoder, close does NOT perform the
release order stated in spec section 4.1 (codec state, then container
handle, then packet buffer). -/
theorem c5_counterexample :
    ¬ (close c5_dec).2 =
      [Res.codec_context, Res.format_context, Res.packet] := by decide

/-- C5 amended: close releases the packet buffer, then the codec context,
then the container handle — the order stated in spec section 6; the order
stated in section 4.1 is not the one the code performs, so exactly one of
the two stated orders matches the code. -/
theorem c5_teardown_order (d : VideoDecoder) (h1 : d.has_packet = true)
    (h2 : d.has_codec_context = true) (h3 : d.has_format_context = true) :
    (close d).2 = [Res.packet, Res.codec_context, Res.format_context] ∧
    ¬ (close d).2 = [Res.codec_context, Res.format_context, Res.packet] := by
  constructor <;> simp [close, h1, h2, h3]

theorem c5_witness :
    (close c5_dec).2 = [Res.packet, Res.codec_context, Res.format_context] ∧
    ¬ (close c5_dec).2 =
      [Res.codec_context, Res.format_context, Res.packet] :=
  c5_teardown_order c5_dec rfl rfl rfl

/-! ### C6: cursor equality -/

def c6_decA : VideoDecoder :=
  ⟨true, true, true, 0, true, false, [⟨0, true, RecvResult.got fA⟩], [], true⟩

def c6_decB : VideoDecoder :=
  ⟨true, true, true, 0, true, false, [⟨0, true, RecvResult.got fB⟩], [], true⟩

/-- C6 counterexample: two fresh cursors over different decoders, neither of
them exhausted, compare equal — refuting "equal iff both exhausted" (and in
particular refuting "at least one not exhausted implies unequal"). -/
theorem c6_counterexample :
    iterEq (mkIterator c6_decA) (mkIterator c6_decB) = true ∧
    (mkIterator c6_decA).at_end = false ∧
    (mkIterator c6_decB).at_end = false := by decide

/-- C6 amended: two cursors compare equal iff their exhaustion flags agree:
both exhausted, or both not exhausted. -/
theorem c6_cursor_equality (a b : VideoFrameIterator) :
    iterEq a b = true ↔
      (a.at_end = true ∧ b.at_end = true) ∨
      (a.at_end = false ∧ b.at_end = false) := by
  cases ha : a.at_end <;> cases hb : b.at_end <;> simp [iterEq, ha, hb]

/-! ### C7: rejected packet submissions are skipped -/

/-- C7: a compressed unit whose submission is rejected is discarded and the
loop continues with the remaining units: read_frame behaves exactly as if
the rejected unit were absent, so no error surfaces, the sequence does not
terminate, and the decoder state machine stays in the reading state. -/
theorem c7_rejected_submission (d : VideoDecoder) (p : PacketEv)
    (ps : List PacketEv) (hopen : d.is_open = true)
    (hex : d.is_exhausted = false) (hpk : d.packets = p :: ps)
    (hsi : p.stream_index = d.video_stream_index)
    (hsend : p.send_ok = false) :
    read_frame d = read_frame { d with packets := ps } := by
  simp [read_frame, read_frame_go, hopen, hex, hpk, hsi, hsend]

def c7_dec : VideoDecoder :=
  ⟨true, true, true, 0, true, false, [⟨0, false, RecvResult.again⟩], [], true⟩

theorem c7_witness :
    read_frame c7_dec = read_frame { c7_dec with packets := [] } :=
  c7_rejected_submission c7_dec ⟨0, false, RecvResult.again⟩ [] rfl rfl rfl
    rfl rfl

/-! ### C10: read_frame on a closed or exhausted decoder -/

/-- C10: calling read_frame on a decoder that is not open or already
exhausted is total and side-effect free: it returns the invalid frame and
the decoder state (container, codec context, packet stream) unchanged. -/
theorem c10_read_frame_guard (d : VideoDecoder)
    (h : d.is_open = false ∨ d.is_exhausted = true) :
    read_frame d = (none, d) := by
  rcases h with h | h <;> simp [read_frame, h]

theorem c10_witness : read_frame VideoDecoder.init = (none, VideoDecoder.init) :=
  c10_read_frame_guard VideoDecoder.init (Or.inl rfl)

/-! ### Supporting lemmas on open, close and main -/

theorem open_decoder_trace (d : VideoDecoder) (env : OpenEnv) :
    (open_decoder d env).2.2 = [Event.open_container] := by
  simp only [open_decoder]
  repeat' split
  all_goals rfl

theorem close_clears (d : VideoDecoder) :
    ((close d).1).has_format_context = false ∧
    ((close d).1).has_codec_context = false ∧
    ((close d).1).has_packet = false := by
  simp only [close]
  repeat' split
  all_goals simp_all

/-! ### C2: negative ordinals are not rejected -/

def c2_pix : List Nat := [1, 2, 3, 4, 5, 6, 7, 8, 9, 10, 11, 12]

def c2_oenv : OpenEnv :=
  ⟨true, true, [true], true, true, true, true, true,
    [⟨0, true, RecvResult.got fW⟩], [], true⟩

def c2_cenv : ConvEnv := ⟨true, true, true, fun _ => 6, fun _ => c2_pix⟩

/-- C2 counterexample: with ordinal -1 the driver still opens the container,
decodes, and in fact succeeds, writing picture 0 — the negative request is
not rejected and container I/O does occur. -/
theorem c2_counterexample :
    (main_model (-1) c2_oenv c2_cenv true).1 = 0 ∧
    (main_model (-1) c2_oenv c2_cenv true).2.1 =
      some (ppmHeader 2 2 ++ c2_pix) ∧
    Event.open_container ∈ (main_model (-1) c2_oenv c2_cenv true).2.2.2 := by
  refine ⟨by decide, by decide, by decide⟩

/-- C2 amended: no negative-ordinal check exists. The driver opens the
container unconditionally (the container-open call happens on every run,
whatever the ordinal), and the selector treats every non-positive ordinal
exactly like ordinal 0. -/
theorem c2_no_negative_rejection :
    (∀ (fi : Int) (oenv : OpenEnv) (cenv : ConvEnv) (fo : Bool),
        Event.open_container ∈ (main_model fi oenv cenv fo).2.2.2) ∧
    (∀ (first last : VideoFrameIterator) (n : Int) (dflt : VideoFrame),
        n ≤ 0 →
        nth_element_or_default first last n dflt =
          nth_element_or_default first last 0 dflt) := by
  constructor
  · intro fi oenv cenv fo
    have ht := open_decoder_trace VideoDecoder.init oenv
    simp only [main_model]
    repeat' split
    all_goals simp [ht]
  · intro first last n dflt hn
    have h0 : n.toNat = 0 := Int.toNat_of_nonpos hn
    simp [nth_element_or_default, h0]

theorem c2_witness :
    Event.open_container ∈ (main_model 5 c2_oenv c2_cenv true).2.2.2 ∧
    nth_element_or_default endIterator endIterator (-7) none =
      nth_element_or_default endIterator endIterator 0 none :=
  ⟨c2_no_negative_rejection.1 5 c2_oenv c2_cenv true,
   c2_no_negative_rejection.2 endIterator endIterator (-7) none (by decide)⟩

/-! ### C4: resource release on fatal errors -/

def c4_oenv : OpenEnv :=
  ⟨true, false, [], true, true, true, true, true, [], [], true⟩

def c4_cenv : ConvEnv := ⟨true, true, true, fun _ => 0, fun _ => []⟩

/-- C4 counterexample: when open fails partway (stream probe fails after the
container was opened), main exits with failure while the container handle is
still owned — the already-acquired resource is not released before exit. -/
theorem c4_counterexample :
    (main_model 0 c4_oenv c4_cenv true).1 = 1 ∧
    (main_model 0 c4_oenv c4_cenv true).2.2.1.has_format_context = true := by
  refine ⟨by decide, by decide⟩

/-- C4 amended: on every fatal error occurring after `open` has succeeded
(frame not found, conversion failure, write failure), close is reached and
all decoder-owned resources (container handle, codec context, packet
buffer) are released before exit; but when open itself fails partway, main
exits without calling close and the partially acquired resources stay
owned. -/
theorem c4_cleanup_after_open (fi : Int) (oenv : OpenEnv) (cenv : ConvEnv)
    (fo : Bool) (hopen : (open_decoder VideoDecoder.init oenv).1 = true) :
    (main_model fi oenv cenv fo).2.2.1.has_format_context = false ∧
    (main_model fi oenv cenv fo).2.2.1.has_codec_context = false ∧
    (main_model fi oenv cenv fo).2.2.1.has_packet = false := by
  simp only [main_model]
  split
  · rename_i hcond
    rw [hopen] at hcond
    simp at hcond
  · split
    · exact close_clears _
    · exact close_clears _

theorem c4_witness :
    (main_model 0 c2_oenv c2_cenv true).2.2.1.has_format_context = false ∧
    (main_model 0 c2_oenv c2_cenv true).2.2.1.has_codec_context = false ∧
    (main_model 0 c2_oenv c2_cenv true).2.2.1.has_packet = false :=
  c4_cleanup_after_open 0 c2_oenv c2_cenv true rfl

/-! ### C9: determinism of the pipeline -/

/-- C9: two independent Frame Source instances opened over the same
container (the same packet/picture stream from the codec library), asked for
the same ordinal and converted under the same conversion environment, yield
pixel-identical rasters. -/
theorem c9_determinism (oenv : OpenEnv) (cenv : ConvEnv) (fo : Bool)
    (n : Int) (d1 d2 : VideoDecoder) (t1 t2 : List Event)
    (h1 : open_decoder VideoDecoder.init oenv = (true, d1, t1))
    (h2 : open_decoder VideoDecoder.init oenv = (true, d2, t2)) :
    write_ppm (to_rgb (nth_element (mkIterator d1) endIterator n) cenv) fo =
      write_ppm (to_rgb (nth_element (mkIterator d2) endIterator n) cenv) fo := by
  have h := h1.symm.trans h2
  have hd : d1 = d2 := by
    have := congrArg (fun x => x.2.1) h
    simpa using this
  rw [hd]

def c9_pkt : PacketEv := ⟨0, true, RecvResult.got fW⟩

def c9_oenv : OpenEnv :=
  ⟨true, true, [true], true, true, true, true, true, [c9_pkt], [], true⟩

def c9_dec : VideoDecoder :=
  ⟨true, true, true, 0, true, false, [c9_pkt], [], true⟩

def c9_cenv : ConvEnv := ⟨true, true, true, fun _ => 6, fun s => s.data0⟩

theorem c9_witness :
    write_ppm (to_rgb (nth_element (mkIterator c9_dec) endIterator 0) c9_cenv)
        true =
      write_ppm (to_rgb (nth_element (mkIterator c9_dec) endIterator 0) c9_cenv)
        true :=
  c9_determinism c9_oenv c9_cenv true 0 c9_dec c9_dec [Event.open_container]
    [Event.open_container] rfl rfl

/-! ### C8: the PPM output format -/

theorem toString_intCast (n : Nat) : toString ((n : Int)) = toString n := rfl

theorem flatten_length_const {α : Type} (L : List (List α)) (c : Nat)
    (h : ∀ x ∈ L, x.length = c) : L.flatten.length = L.length * c := by
  induction L with
  | nil => simp
  | cons a L ih =>
    simp only [List.flatten_cons, List.length_append, List.length_cons]
    rw [h a (by simp), ih (fun x hx => h x (by simp [hx]))]
    ring

/-- C8: for an RGB raster of dimensions w by h (with the stride and buffer
invariants av_frame_get_buffer establishes: stride at least 3w and a buffer
covering h strides), the written file is the ASCII header
"P6\n<w> <h>\n255\n" followed by the h rows, top row first, each row being
exactly the 3w pixel bytes at its stride offset with no padding between
rows; the pixel payload has exactly 3*w*h bytes. -/
theorem c8_ppm_format (r : FrameData) (w h : Nat)
    (hw : r.width = (w : Int)) (hh : r.height = (h : Int))
    (hls : 3 * (w : Int) ≤ r.linesize0)
    (hlen : (h : Int) * r.linesize0 ≤ (r.data0.length : Int)) :
    write_ppm (some r) true =
      (some ((("P6\n" ++ toString w ++ " " ++ toString h ++
          "\n255\n").toList.map Char.toNat) ++
        ((List.range h).map
          (fun y => (r.data0.drop (y * r.linesize0.toNat)).take
            (3 * w))).flatten), true) ∧
    (((List.range h).map
        (fun y => (r.data0.drop (y * r.linesize0.toNat)).take
          (3 * w))).flatten).length = 3 * w * h := by
  have hls0 : 0 ≤ r.linesize0 := le_trans (by positivity) hls
  have hlsN : r.linesize0 = (r.linesize0.toNat : Int) :=
    (Int.toNat_of_nonneg hls0).symm
  have hcast : ∀ y : Nat,
      ((y : Int) * r.linesize0).toNat = y * r.linesize0.toNat := by
    intro y
    conv_lhs => rw [hlsN]
    rw [← Nat.cast_mul, Int.toNat_ofNat]
  have h3w : (3 * r.width).toNat = 3 * w := by rw [hw]; omega
  have h3wls : 3 * w ≤ r.linesize0.toNat := by
    rw [hlsN] at hls
    exact_mod_cast hls
  have hlen2 : h * r.linesize0.toNat ≤ r.data0.length := by
    rw [hlsN] at hlen
    exact_mod_cast hlen
  have hfun : ppmRow r =
      fun y => (r.data0.drop (y * r.linesize0.toNat)).take (3 * w) := by
    funext y
    unfold ppmRow
    rw [hcast y, h3w]
  have hhead : ppmHeader r.width r.height =
      ("P6\n" ++ toString w ++ " " ++ toString h ++
        "\n255\n").toList.map Char.toNat := by
    rw [ppmHeader, hw, hh, toString_intCast, toString_intCast]
  have hht : r.height.toNat = h := by rw [hh]; exact Int.toNat_ofNat h
  have hrowlen : ∀ x ∈ (List.range h).map
      (fun y => (r.data0.drop (y * r.linesize0.toNat)).take (3 * w)),
      x.length = 3 * w := by
    intro x hx
    obtain ⟨y, hy, rfl⟩ := List.mem_map.mp hx
    have hyh : y < h := List.mem_range.mp hy
    have hfit : 3 * w ≤ r.data0.length - y * r.linesize0.toNat := by
      have hstep : y * r.linesize0.toNat + r.linesize0.toNat ≤
          h * r.linesize0.toNat := by
        have := Nat.mul_le_mul_right (r.linesize0.toNat)
          (Nat.succ_le_of_lt hyh)
        simpa [Nat.succ_mul] using this
      omega
    simp only [List.length_take, List.length_drop]
    omega
  constructor
  · simp only [write_ppm, Bool.not_true, Bool.false_eq_true, if_false, hht,
      hfun, hhead]
  · rw [flatten_length_const _ (3 * w) hrowlen, List.length_map,
      List.length_range]
    ring

def c8_frame : FrameData := ⟨1, 2, 2, 4, [10, 11, 12, 99, 20, 21, 22, 98]⟩

theorem c8_witness :
    write_ppm (some c8_frame) true =
      (some ((("P6\n" ++ toString (1 : Nat) ++ " " ++ toString (2 : Nat) ++
          "\n255\n").toList.map Char.toNat) ++
        ((List.range 2).map
          (fun y => (c8_frame.data0.drop (y * c8_frame.linesize0.toNat)).take
            (3 * 1))).flatten), true) ∧
    (((List.range 2).map
        (fun y => (c8_frame.data0.drop (y * c8_frame.linesize0.toNat)).take
          (3 * 1))).flatten).length = 3 * 1 * 2 :=
  c8_ppm_format c8_frame 1 2 rfl rfl (by decide) (by decide)

end GetFrame
